import Mathlib

/-!
Verification of `yeastdnnexplorer`'s `CustomizableModel`
(src/yeastdnnexplorer/ml_models/customizable_model.py) against its
natural-language specification.

The Python class is shallowly embedded:
* Python scalar values that flow through the constructor's `isinstance`
  checks are modelled by `PyVal` (`bool` is a subclass of `int` in Python,
  so `isinstance(True, int)` holds, while `isinstance` of an `int` or
  `bool` against `float` does not).
* Python exceptions are the `PyError` type; fallible code returns
  `Except PyError _`.
* Tensors are `List (List ℚ)` (a batch of rows); `torch.nn.Linear` is a
  weight matrix plus bias.  Torch raises a runtime error when a linear
  layer is applied to rows whose length differs from its `in_features`;
  `applyLinearT` models that.
* Torch initialises layer weights randomly; the embedded constructor is
  parametrised by initialiser functions `winit`/`binit` instead.
* The numeric semantics of the activation modules (Sigmoid and Tanh are
  transcendental) and of dropout (random mask in training mode, identity
  in eval mode) are abstracted into an `Env` of elementwise maps; no
  claim below depends on their values, only on which module is selected
  and on shapes.
* `self.log(key, loss)` is modelled by returning the list of logged
  (key, value) pairs alongside the step's return value.
-/

/-- A Python scalar value as far as the constructor's validation sees it. -/
inductive PyVal where
  | intV (n : Int)
  | boolV (b : Bool)
  | floatV (q : ℚ)
  | strV (s : String)
deriving DecidableEq, Repr

/-- Python `isinstance(v, int)`: true for `int` and for `bool` (a subclass of `int`). -/
def PyVal.isInt : PyVal → Bool
  | .intV _ => true
  | .boolV _ => true
  | _ => false

/-- Python `isinstance(v, float)`: true only for `float` values. -/
def PyVal.isFloat : PyVal → Bool
  | .floatV _ => true
  | _ => false

/-- The integer a Python `int`-like value stands for (`True` is 1, `False` is 0);
arbitrary on other values, which never reach an integer context in the code. -/
def PyVal.toInt : PyVal → Int
  | .intV n => n
  | .boolV b => if b then 1 else 0
  | .floatV _ => 0
  | .strV _ => 0

/-- The rational a Python number stands for (floats are modelled as exact rationals). -/
def PyVal.toRat : PyVal → ℚ
  | .intV n => (n : ℚ)
  | .boolV b => if b then 1 else 0
  | .floatV q => q
  | .strV _ => 0

/-- The Python exceptions the embedded code can raise. -/
inductive PyError where
  | typeError (msg : String)
  | valueError (msg : String)
  | indexError
  | runtimeError
deriving DecidableEq, Repr

/-- A batch tensor: a list of rows, each row a list of feature values. -/
abbrev Tensor := List (List ℚ)

/-- Dot product of two equally long lists (zip truncates; the caller checks lengths). -/
def dot (w x : List ℚ) : ℚ := ((w.zip x).map fun p => p.1 * p.2).sum

/-- `torch.nn.Linear`: `weight` has `out_features` rows of `in_features` entries,
`bias` has `out_features` entries. -/
structure Linear where
  in_features : ℕ
  out_features : ℕ
  weight : List (List ℚ)
  bias : List ℚ
deriving DecidableEq, Repr

/-- `nn.Linear(inF, outF)` with the (in torch, random) initial entries supplied
by `w` and `b`. -/
def mkLinear (inF outF : ℕ) (w : ℕ → ℕ → ℚ) (b : ℕ → ℚ) : Linear :=
  { in_features := inF
    out_features := outF
    weight := (List.range outF).map fun i => (List.range inF).map (w i)
    bias := (List.range outF).map b }

/-- Applying a linear layer to a batch: torch raises a runtime error when a
row's length differs from `in_features`; otherwise each output row is
`weight · row + bias`. -/
def applyLinearT (L : Linear) (x : Tensor) : Except PyError Tensor :=
  x.mapM fun row =>
    if row.length = L.in_features then
      Except.ok ((L.weight.zip L.bias).map fun wb => dot wb.1 row + wb.2)
    else Except.error PyError.runtimeError

/-- The four torch activation modules the constructor can select. -/
inductive Activation where
  | ReLU
  | Sigmoid
  | Tanh
  | LeakyReLU
deriving DecidableEq, Repr

/-- The numeric semantics left abstract: each activation module as an
elementwise map, and dropout as an elementwise map (identity in eval mode). -/
structure Env where
  actSem : Activation → ℚ → ℚ
  dropSem : ℚ → ℚ

/-- Elementwise application of the selected activation module to a batch. -/
def actT (env : Env) (a : Activation) (x : Tensor) : Tensor :=
  x.map (List.map (env.actSem a))

/-- Elementwise application of dropout to a batch. -/
def dropT (env : Env) (x : Tensor) : Tensor :=
  x.map (List.map env.dropSem)

/-- The `match activation` block of `CustomizableModel.__init__`. -/
def selectActivation (activation : String) : Except PyError Activation :=
  match activation with
  | "ReLU" => Except.ok Activation.ReLU
  | "Sigmoid" => Except.ok Activation.Sigmoid
  | "Tanh" => Except.ok Activation.Tanh
  | "LeakyRelU" => Except.ok Activation.LeakyReLU
  | _ => Except.error (PyError.valueError
      "activation must be one of 'ReLU', 'Sigmoid', 'Tanh', 'LeakyRelU'")

/-- Python list indexing `l[i]` for a nonnegative index: `IndexError` out of range. -/
def pyIndex (l : List Int) (i : ℕ) : Except PyError Int :=
  match l.get? i with
  | some v => Except.ok v
  | none => Except.error PyError.indexError

/-- Python `l[-1]`: the last element, `IndexError` on the empty list. -/
def pyLast (l : List Int) : Except PyError Int :=
  match l.getLast? with
  | some v => Except.ok v
  | none => Except.error PyError.indexError

/-- The state of a constructed `CustomizableModel`. -/
structure CustomizableModel where
  input_dim : PyVal
  output_dim : PyVal
  lr : PyVal
  hidden_layer_num : Int
  hidden_layer_sizes : List Int
  optimizer : String
  L2_regularization_term : ℚ
  activation : Activation
  input_layer : Linear
  hidden_layers : List Linear
  output_layer : Linear
  dropout_rate : ℚ

/-- `CustomizableModel.__init__`, in the source's order: the two `isinstance`
integer checks, the `lr` check (a `TypeError` also when a float `lr` is
nonpositive), the dimension value check, field assignment, the activation
`match`, then layer construction — `Linear(input_dim, hidden_layer_sizes[0])`,
the loop `for i in range(hidden_layer_num - 1)` appending
`Linear(hidden_layer_sizes[i], hidden_layer_sizes[i+1])`, and
`Linear(hidden_layer_sizes[-1], output_dim)`.  `winit`/`binit` supply the
(in torch, random) initial weights of the layer with the given index. -/
def CustomizableModel.init (input_dim output_dim lr : PyVal)
    (hidden_layer_num : Int) (hidden_layer_sizes : List Int)
    (activation optimizer : String)
    (L2_regularization_term dropout_rate : ℚ)
    (winit : ℕ → ℕ → ℕ → ℚ) (binit : ℕ → ℕ → ℚ) :
    Except PyError CustomizableModel := do
  if ¬ input_dim.isInt then
    throw (PyError.typeError "input_dim must be an integer")
  if ¬ output_dim.isInt then
    throw (PyError.typeError "output_dim must be an integer")
  if ¬ lr.isFloat ∨ lr.toRat ≤ 0 then
    throw (PyError.typeError "lr must be a positive float")
  if input_dim.toInt < 1 ∨ output_dim.toInt < 1 then
    throw (PyError.valueError "input_dim and output_dim must be positive integers")
  let act ← selectActivation activation
  let s0 ← pyIndex hidden_layer_sizes 0
  let input_layer := mkLinear input_dim.toInt.toNat s0.toNat (winit 0) (binit 0)
  let hidden_layers ← (List.range (hidden_layer_num - 1).toNat).mapM fun i => do
    let a ← pyIndex hidden_layer_sizes i
    let b ← pyIndex hidden_layer_sizes (i + 1)
    pure (mkLinear a.toNat b.toNat (winit (i + 1)) (binit (i + 1)))
  let slast ← pyLast hidden_layer_sizes
  let output_layer := mkLinear slast.toNat output_dim.toInt.toNat
    (winit hidden_layer_num.toNat) (binit hidden_layer_num.toNat)
  return { input_dim := input_dim
           output_dim := output_dim
           lr := lr
           hidden_layer_num := hidden_layer_num
           hidden_layer_sizes := hidden_layer_sizes
           optimizer := optimizer
           L2_regularization_term := L2_regularization_term
           activation := act
           input_layer := input_layer
           hidden_layers := hidden_layers
           output_layer := output_layer
           dropout_rate := dropout_rate }

/-- The `for hidden_layer in self.hidden_layers` loop of `forward`:
`x = self.dropout(self.activation(hidden_layer(x)))` per layer. -/
def forwardHidden (env : Env) (a : Activation) :
    List Linear → Tensor → Except PyError Tensor
  | [], x => Except.ok x
  | L :: rest, x => do
    let y ← applyLinearT L x
    forwardHidden env a rest (dropT env (actT env a y))

/-- `CustomizableModel.forward`: dropout-of-activation-of-input-layer, the
hidden-layer loop, then the output layer. -/
def CustomizableModel.forward (env : Env) (m : CustomizableModel) (x : Tensor) :
    Except PyError Tensor := do
  let y ← applyLinearT m.input_layer x
  let x1 := dropT env (actT env m.activation y)
  let x2 ← forwardHidden env m.activation m.hidden_layers x1
  applyLinearT m.output_layer x2

/-- `torch.nn.functional.mse_loss`: the mean of the squared elementwise
differences over all elements. -/
def mse_loss (pred target : Tensor) : ℚ :=
  let diffs := ((pred.zip target).map fun rt =>
    (rt.1.zip rt.2).map fun ab => (ab.1 - ab.2) ^ 2).flatten
  if diffs.length = 0 then 0 else diffs.sum / diffs.length

/-- `training_step`: unpack the batch, run `forward`, take the MSE loss,
log it under "train_loss" and return it.  The result pairs the returned
loss with the list of `self.log` calls made. -/
def CustomizableModel.training_step (env : Env) (m : CustomizableModel)
    (batch : Tensor × Tensor) (batch_idx : Int) :
    Except PyError (ℚ × List (String × ℚ)) := do
  let (x, y) := batch
  let y_pred ← m.forward env x
  let loss := mse_loss y_pred y
  return (loss, [("train_loss", loss)])

/-- `validation_step`: identical to `training_step` up to the log key "val_loss". -/
def CustomizableModel.validation_step (env : Env) (m : CustomizableModel)
    (batch : Tensor × Tensor) (batch_idx : Int) :
    Except PyError (ℚ × List (String × ℚ)) := do
  let (x, y) := batch
  let y_pred ← m.forward env x
  let loss := mse_loss y_pred y
  return (loss, [("val_loss", loss)])

/-- `test_step`: identical to `training_step` up to the log key "test_loss". -/
def CustomizableModel.test_step (env : Env) (m : CustomizableModel)
    (batch : Tensor × Tensor) (batch_idx : Int) :
    Except PyError (ℚ × List (String × ℚ)) := do
  let (x, y) := batch
  let y_pred ← m.forward env x
  let loss := mse_loss y_pred y
  return (loss, [("test_loss", loss)])

/-- The three stock optimizers `configure_optimizers` can return. -/
inductive OptKind where
  | Adam
  | SGD
  | RMSprop
deriving DecidableEq, Repr

/-- An optimizer as constructed by `configure_optimizers`: its kind, the
learning rate passed as `lr=self.lr` and the weight decay passed as
`weight_decay=self.L2_regularization_term`. -/
structure Optim where
  kind : OptKind
  lr : PyVal
  weight_decay : ℚ
deriving DecidableEq, Repr

/-- `CustomizableModel.configure_optimizers`: the `match self.optimizer` switch. -/
def CustomizableModel.configure_optimizers (m : CustomizableModel) :
    Except PyError Optim :=
  match m.optimizer with
  | "Adam" => Except.ok ⟨OptKind.Adam, m.lr, m.L2_regularization_term⟩
  | "SGD" => Except.ok ⟨OptKind.SGD, m.lr, m.L2_regularization_term⟩
  | "RMSprop" => Except.ok ⟨OptKind.RMSprop, m.lr, m.L2_regularization_term⟩
  | _ => Except.error (PyError.valueError
      "optimizer must be one of 'Adam', 'SGD', 'RMSprop'")

/-- A linear layer whose weight matrix and bias have the sizes its
`out_features` field declares (true of every `mkLinear`). -/
def Linear.WF (L : Linear) : Prop :=
  L.weight.length = L.out_features ∧ L.bias.length = L.out_features

/-- The layers compose: rows of length `n` fit the first layer's
`in_features`, each layer's output fits the next, ending at length `m`. -/
def Chain : ℕ → List Linear → ℕ → Prop
  | n, [], m => n = m
  | n, L :: ls, m => L.in_features = n ∧ L.WF ∧ Chain L.out_features ls m

/-! ### Concrete objects used in witnesses -/

/-- Decidable equality on `Except`, so concrete runs can be checked by `decide`. -/
instance exceptDecEq {ε α : Type} [DecidableEq ε] [DecidableEq α] :
    DecidableEq (Except ε α) := fun a b =>
  match a, b with
  | .ok x, .ok y => if h : x = y then isTrue (by simp [h]) else isFalse (by simp [h])
  | .error x, .error y => if h : x = y then isTrue (by simp [h]) else isFalse (by simp [h])
  | .ok _, .error _ => isFalse (by simp)
  | .error _, .ok _ => isFalse (by simp)

/-- A concrete activation/dropout semantics (identity maps) for evaluations. -/
def env0 : Env := { actSem := fun _ q => q, dropSem := fun q => q }

/-- A concrete weight initialiser: every weight entry is 1. -/
def w0 : ℕ → ℕ → ℕ → ℚ := fun _ _ _ => 1

/-- A concrete bias initialiser: every bias entry is 0. -/
def b0 : ℕ → ℕ → ℚ := fun _ _ => 0

/-- A small concrete model (1 input, 1 output, no hidden layers beyond the chain
input layer / output layer, identity-friendly weights). -/
def wModel : CustomizableModel :=
  { input_dim := PyVal.intV 1
    output_dim := PyVal.intV 1
    lr := PyVal.floatV (1 / 1000)
    hidden_layer_num := 1
    hidden_layer_sizes := [1]
    optimizer := "Adam"
    L2_regularization_term := 0
    activation := Activation.ReLU
    input_layer := mkLinear 1 1 (fun _ _ => 1) (fun _ => 0)
    hidden_layers := []
    output_layer := mkLinear 1 1 (fun _ _ => 1) (fun _ => 0)
    dropout_rate := 0 }

/-- `wModel` with its optimizer string replaced. -/
def wModelOpt (s : String) : CustomizableModel := { wModel with optimizer := s }

/-! ### Helper lemmas -/

/-- If `f` succeeds with `g a` on every element, `mapM f` succeeds with the map. -/
theorem mapM_ok_of_forall {α β : Type} (f : α → Except PyError β) (g : α → β) :
    ∀ (l : List α), (∀ a ∈ l, f a = Except.ok (g a)) →
      l.mapM f = Except.ok (l.map g) := by
  intro l
  induction l with
  | nil => intro _; rfl
  | cons a l ih =>
    intro h
    rw [List.map_cons, List.mapM_cons, h a (List.mem_cons_self a l),
      ih fun a ha => h a (List.mem_cons_of_mem _ ha)]
    rfl

/-- In `Except`, binding after an error keeps the error. -/
theorem except_error_bind {ε α β : Type} (e : ε) (k : α → Except ε β) :
    (Except.error e >>= k) = Except.error e := rfl

/-- In `Except`, binding after a success runs the continuation. -/
theorem except_ok_bind {ε α β : Type} (a : α) (k : α → Except ε β) :
    (Except.ok a >>= k) = k a := rfl

/-- Any error a `mapM` raises is an error some element's computation raises. -/
theorem mapM_error_elim {α β : Type} (f : α → Except PyError β) (P : PyError → Prop)
    (hf : ∀ a e, f a = Except.error e → P e) :
    ∀ (l : List α) (e : PyError), l.mapM f = Except.error e → P e := by
  intro l
  induction l with
  | nil => intro e h; simp [List.mapM.loop, pure, Except.pure] at h
  | cons a l ih =>
    intro e h
    rw [List.mapM_cons] at h
    cases hfa : f a with
    | error e1 =>
      rw [hfa, except_error_bind] at h
      injection h with h1
      exact h1 ▸ hf a e1 hfa
    | ok b =>
      rw [hfa, except_ok_bind] at h
      cases hml : l.mapM f with
      | error e2 =>
        rw [hml, except_error_bind] at h
        injection h with h1
        exact h1 ▸ ih e2 hml
      | ok bs =>
        rw [hml, except_ok_bind] at h
        simp [pure, Except.pure] at h

/-- `l[i]` succeeds exactly on in-range indices, with the element there. -/
theorem pyIndex_ok (l : List Int) (i : ℕ) (h : i < l.length) :
    pyIndex l i = Except.ok (l.getD i 0) := by
  unfold pyIndex
  rw [List.get?_eq_getElem?, List.getElem?_eq_getElem h, List.getD_eq_getElem l 0 h]

/-- The only error `pyIndex` raises is `IndexError`. -/
theorem pyIndex_error_eq {l : List Int} {i : ℕ} {e : PyError}
    (h : pyIndex l i = Except.error e) : e = PyError.indexError := by
  unfold pyIndex at h
  split at h <;> simp_all

/-- `l[-1]` on a nonempty list is its last element. -/
theorem pyLast_ok (l : List Int) (h : l ≠ []) :
    pyLast l = Except.ok (l.getLast h) := by
  unfold pyLast
  rw [List.getLast?_eq_getLast l h]

/-- The only error `pyLast` raises is `IndexError`. -/
theorem pyLast_error_eq {l : List Int} {e : PyError}
    (h : pyLast l = Except.error e) : e = PyError.indexError := by
  unfold pyLast at h
  split at h <;> simp_all

/-- The only error the activation `match` raises is its `ValueError`. -/
theorem selectActivation_error_eq {s : String} {e : PyError}
    (h : selectActivation s = Except.error e) :
    e = PyError.valueError
      "activation must be one of 'ReLU', 'Sigmoid', 'Tanh', 'LeakyRelU'" := by
  unfold selectActivation at h
  split at h <;> simp_all

/-- Every `mkLinear` is well formed. -/
theorem mkLinear_wf (inF outF : ℕ) (w : ℕ → ℕ → ℚ) (b : ℕ → ℚ) :
    (mkLinear inF outF w b).WF := by
  simp [mkLinear, Linear.WF]

/-- A well-formed layer applied to rows of its input length succeeds, keeps the
batch size, and outputs rows of its output length. -/
theorem applyLinearT_ok (L : Linear) (hwf : L.WF) :
    ∀ (x : Tensor), (∀ r ∈ x, r.length = L.in_features) →
    ∃ y, applyLinearT L x = Except.ok y ∧ y.length = x.length ∧
      ∀ r ∈ y, r.length = L.out_features := by
  intro x
  induction x with
  | nil => intro _; exact ⟨[], rfl, rfl, by simp⟩
  | cons r x ih =>
    intro h
    obtain ⟨y, hy, hlen, hrow⟩ := ih fun r hr => h r (List.mem_cons_of_mem _ hr)
    refine ⟨((L.weight.zip L.bias).map fun wb => dot wb.1 r + wb.2) :: y, ?_, ?_, ?_⟩
    · unfold applyLinearT at hy ⊢
      rw [List.mapM_cons, if_pos (h r (List.mem_cons_self r x)), hy]
      rfl
    · simp [hlen]
    · intro s hs
      rcases List.mem_cons.mp hs with hs | hs
      · subst hs
        simp [List.length_zip, hwf.1, hwf.2]
      · exact hrow s hs

/-- Elementwise maps (activation, dropout) keep both batch size and row lengths. -/
theorem elementwise_shape (f : ℚ → ℚ) (x : Tensor) (n : ℕ)
    (h : ∀ r ∈ x, r.length = n) :
    (x.map (List.map f)).length = x.length ∧
      ∀ r ∈ x.map (List.map f), r.length = n := by
  constructor
  · simp
  · intro r hr
    obtain ⟨s, hs, rfl⟩ := List.mem_map.mp hr
    simp [h s hs]

/-- A chained hidden-layer list maps rows of length `n` to rows of length `m`,
keeping the batch size. -/
theorem forwardHidden_ok (env : Env) (a : Activation) :
    ∀ (ls : List Linear) (n m : ℕ) (x : Tensor), Chain n ls m →
      (∀ r ∈ x, r.length = n) →
      ∃ y, forwardHidden env a ls x = Except.ok y ∧ y.length = x.length ∧
        ∀ r ∈ y, r.length = m := by
  intro ls
  induction ls with
  | nil =>
    intro n m x hc hx
    exact ⟨x, rfl, rfl, hc ▸ hx⟩
  | cons L ls ih =>
    intro n m x hc hx
    obtain ⟨hin, hwf, hchain⟩ := hc
    obtain ⟨y, hy, hylen, hyrow⟩ := applyLinearT_ok L hwf x (hin ▸ hx)
    have h1 := elementwise_shape (env.actSem a) y _ hyrow
    have h2 := elementwise_shape env.dropSem (actT env a y) _ h1.2
    obtain ⟨z, hz, hzlen, hzrow⟩ :=
      ih L.out_features m (dropT env (actT env a y)) hchain h2.2
    refine ⟨z, ?_, ?_, hzrow⟩
    · unfold forwardHidden
      rw [hy]
      exact hz
    · rw [hzlen]
      simpa [dropT, actT] using hylen

/-- In `Except`, binding after `pure` runs the continuation. -/
theorem except_pure_bind {ε α β : Type} (a : α) (k : α → Except ε β) :
    ((pure a : Except ε α) >>= k) = k a := rfl

/-- Under passing validation, a recognised activation, a nonempty size list
and `hidden_layer_num ≤ len(hidden_layer_sizes)`, the constructor succeeds
and returns exactly this model. -/
theorem init_ok (input_dim output_dim lr : PyVal) (num : Int) (sizes : List Int)
    (act opt : String) (L2 dr : ℚ) (winit : ℕ → ℕ → ℕ → ℚ) (binit : ℕ → ℕ → ℚ)
    (a : Activation)
    (h1 : input_dim.isInt = true) (h2 : output_dim.isInt = true)
    (h3 : lr.isFloat = true) (h4 : 0 < lr.toRat)
    (h5 : 1 ≤ input_dim.toInt) (h6 : 1 ≤ output_dim.toInt)
    (ha : selectActivation act = Except.ok a)
    (hne : sizes ≠ []) (hlen : num ≤ (sizes.length : Int)) :
    CustomizableModel.init input_dim output_dim lr num sizes act opt L2 dr winit binit =
      Except.ok
        { input_dim := input_dim
          output_dim := output_dim
          lr := lr
          hidden_layer_num := num
          hidden_layer_sizes := sizes
          optimizer := opt
          L2_regularization_term := L2
          activation := a
          input_layer := mkLinear input_dim.toInt.toNat (sizes.getD 0 0).toNat
            (winit 0) (binit 0)
          hidden_layers := (List.range (num - 1).toNat).map fun i =>
            mkLinear (sizes.getD i 0).toNat (sizes.getD (i + 1) 0).toNat
              (winit (i + 1)) (binit (i + 1))
          output_layer := mkLinear (sizes.getLast hne).toNat output_dim.toInt.toNat
            (winit num.toNat) (binit num.toNat)
          dropout_rate := dr } := by
  have hl0 : 0 < sizes.length := List.length_pos.mpr hne
  unfold CustomizableModel.init
  rw [if_neg (not_not_intro h1), except_pure_bind,
      if_neg (not_not_intro h2), except_pure_bind,
      if_neg (by rw [not_or, not_not, not_le]; exact ⟨h1 ▸ h3, h4⟩), except_pure_bind,
      if_neg (by rw [not_or, not_lt, not_lt]; exact ⟨h5, h6⟩), except_pure_bind,
      ha, except_ok_bind, pyIndex_ok sizes 0 hl0, except_ok_bind]
  rw [mapM_ok_of_forall _
      (fun i => mkLinear (sizes.getD i 0).toNat (sizes.getD (i + 1) 0).toNat
        (winit (i + 1)) (binit (i + 1)))
      (List.range (num - 1).toNat)
      (by
        intro i hi
        have hi1 : i + 1 < sizes.length := by
          have := List.mem_range.mp hi
          omega
        rw [pyIndex_ok sizes i (by omega), except_ok_bind,
          pyIndex_ok sizes (i + 1) hi1, except_ok_bind]
        rfl),
    except_ok_bind, pyLast_ok sizes hne, except_ok_bind]
  rfl

/-- Once the dimension checks pass, any error the constructor raises is the
`lr` TypeError, the activation ValueError, or an IndexError from the size
list — never one of the dimension check errors. -/
theorem init_error_classify (input_dim output_dim lr : PyVal) (num : Int)
    (sizes : List Int) (act opt : String) (L2 dr : ℚ)
    (winit : ℕ → ℕ → ℕ → ℚ) (binit : ℕ → ℕ → ℚ)
    (h1 : input_dim.isInt = true) (h2 : output_dim.isInt = true)
    (h5 : 1 ≤ input_dim.toInt) (h6 : 1 ≤ output_dim.toInt)
    (e : PyError)
    (h : CustomizableModel.init input_dim output_dim lr num sizes act opt L2 dr
      winit binit = Except.error e) :
    e = PyError.typeError "lr must be a positive float" ∨
    e = PyError.valueError
      "activation must be one of 'ReLU', 'Sigmoid', 'Tanh', 'LeakyRelU'" ∨
    e = PyError.indexError := by
  unfold CustomizableModel.init at h
  rw [if_neg (not_not_intro h1), except_pure_bind,
      if_neg (not_not_intro h2), except_pure_bind] at h
  by_cases hlr : ¬ lr.isFloat = true ∨ lr.toRat ≤ 0
  · rw [if_pos hlr] at h
    have h' : Except.error (PyError.typeError "lr must be a positive float") =
        (Except.error e : Except PyError CustomizableModel) := h
    injection h' with h''
    exact Or.inl h''.symm
  · rw [if_neg hlr, except_pure_bind,
      if_neg (by rw [not_or, not_lt, not_lt]; exact ⟨h5, h6⟩), except_pure_bind] at h
    cases hsa : selectActivation act with
    | error e1 =>
      rw [hsa, except_error_bind] at h
      injection h with h'
      exact Or.inr (Or.inl (h' ▸ selectActivation_error_eq hsa))
    | ok a =>
      rw [hsa, except_ok_bind] at h
      cases hs0 : pyIndex sizes 0 with
      | error e1 =>
        rw [hs0, except_error_bind] at h
        injection h with h'
        exact Or.inr (Or.inr (h' ▸ pyIndex_error_eq hs0))
      | ok s0 =>
        rw [hs0, except_ok_bind] at h
        have hbody : ∀ (i : ℕ) (e' : PyError),
            (do
              let av ← pyIndex sizes i
              let bv ← pyIndex sizes (i + 1)
              pure (mkLinear av.toNat bv.toNat (winit (i + 1)) (binit (i + 1))) :
                Except PyError Linear) = Except.error e' →
            e' = PyError.indexError := by
          intro i e' hb
          cases hpi : pyIndex sizes i with
          | error e2 =>
            rw [hpi, except_error_bind] at hb
            injection hb with hb'
            exact hb' ▸ pyIndex_error_eq hpi
          | ok av =>
            rw [hpi, except_ok_bind] at hb
            cases hpj : pyIndex sizes (i + 1) with
            | error e2 =>
              rw [hpj, except_error_bind] at hb
              injection hb with hb'
              exact hb' ▸ pyIndex_error_eq hpj
            | ok bv =>
              rw [hpj, except_ok_bind] at hb
              simp [pure, Except.pure] at hb
        cases hm : (List.range (num - 1).toNat).mapM fun i => (do
            let av ← pyIndex sizes i
            let bv ← pyIndex sizes (i + 1)
            pure (mkLinear av.toNat bv.toNat (winit (i + 1)) (binit (i + 1))) :
              Except PyError Linear) with
        | error e1 =>
          rw [hm, except_error_bind] at h
          injection h with h'
          exact Or.inr (Or.inr (h' ▸ mapM_error_elim _ _ hbody _ e1 hm))
        | ok hls =>
          rw [hm, except_ok_bind] at h
          cases hlast : pyLast sizes with
          | error e1 =>
            rw [hlast, except_error_bind] at h
            injection h with h'
            exact Or.inr (Or.inr (h' ▸ pyLast_error_eq hlast))
          | ok slast =>
            rw [hlast, except_ok_bind] at h
            simp [pure, Except.pure] at h

/-! ### Claims -/

/-- C1: each of `training_step`, `validation_step`, `test_step` returns the
mean-squared-error loss between the model's forward output on `x` and the
target `y`, and logs exactly that value under the keys "train_loss",
"val_loss" and "test_loss" respectively. -/
theorem steps_return_mse_and_log (env : Env) (m : CustomizableModel)
    (x y : Tensor) (i : Int) (y_pred : Tensor)
    (h : m.forward env x = Except.ok y_pred) :
    m.training_step env (x, y) i =
      Except.ok (mse_loss y_pred y, [("train_loss", mse_loss y_pred y)]) ∧
    m.validation_step env (x, y) i =
      Except.ok (mse_loss y_pred y, [("val_loss", mse_loss y_pred y)]) ∧
    m.test_step env (x, y) i =
      Except.ok (mse_loss y_pred y, [("test_loss", mse_loss y_pred y)]) := by
  refine ⟨?_, ?_, ?_⟩ <;>
    simp [CustomizableModel.training_step, CustomizableModel.validation_step,
      CustomizableModel.test_step, h]

/-- Witness for C1 at a concrete model and batch. -/
theorem steps_return_mse_and_log_witness :
    wModel.forward env0 [[1]] = Except.ok [[1]] ∧
    wModel.training_step env0 ([[1]], [[0]]) 0 =
      Except.ok (mse_loss [[1]] [[0]], [("train_loss", mse_loss [[1]] [[0]])]) ∧
    wModel.validation_step env0 ([[1]], [[0]]) 0 =
      Except.ok (mse_loss [[1]] [[0]], [("val_loss", mse_loss [[1]] [[0]])]) ∧
    wModel.test_step env0 ([[1]], [[0]]) 0 =
      Except.ok (mse_loss [[1]] [[0]], [("test_loss", mse_loss [[1]] [[0]])]) :=
  have hf : wModel.forward env0 [[1]] = Except.ok [[1]] := by
    simp [CustomizableModel.forward, applyLinearT, mkLinear, dot, actT, dropT, env0, wModel,
      forwardHidden, List.mapM, List.mapM.loop, List.range, List.range.loop,
      Bind.bind, Except.bind, Pure.pure, Except.pure]
  ⟨hf,
   (steps_return_mse_and_log env0 wModel [[1]] [[0]] 0 [[1]] hf).1,
   (steps_return_mse_and_log env0 wModel [[1]] [[0]] 0 [[1]] hf).2.1,
   (steps_return_mse_and_log env0 wModel [[1]] [[0]] 0 [[1]] hf).2.2⟩

/-- C2: on the same batch the three step methods return equal loss values:
they differ only in the logging key. -/
theorem steps_equal_loss (env : Env) (m : CustomizableModel)
    (batch : Tensor × Tensor) (i : Int) :
    (m.training_step env batch i).map Prod.fst =
      (m.validation_step env batch i).map Prod.fst ∧
    (m.validation_step env batch i).map Prod.fst =
      (m.test_step env batch i).map Prod.fst := by
  obtain ⟨x, y⟩ := batch
  cases h : m.forward env x <;>
    simp [CustomizableModel.training_step, CustomizableModel.validation_step,
      CustomizableModel.test_step, h, Except.map]

/-- C3: `configure_optimizers` returns Adam / SGD / RMSprop for the strings
"Adam" / "SGD" / "RMSprop", each built with `lr = self.lr` and
`weight_decay = self.L2_regularization_term`, and raises `ValueError` for
every other optimizer string. -/
theorem configure_optimizers_spec (m : CustomizableModel) :
    (m.optimizer = "Adam" → m.configure_optimizers =
      Except.ok ⟨OptKind.Adam, m.lr, m.L2_regularization_term⟩) ∧
    (m.optimizer = "SGD" → m.configure_optimizers =
      Except.ok ⟨OptKind.SGD, m.lr, m.L2_regularization_term⟩) ∧
    (m.optimizer = "RMSprop" → m.configure_optimizers =
      Except.ok ⟨OptKind.RMSprop, m.lr, m.L2_regularization_term⟩) ∧
    (m.optimizer ∉ (["Adam", "SGD", "RMSprop"] : List String) →
      m.configure_optimizers = Except.error (PyError.valueError
        "optimizer must be one of 'Adam', 'SGD', 'RMSprop'")) := by
  refine ⟨fun h => ?_, fun h => ?_, fun h => ?_, fun h => ?_⟩
  · simp [CustomizableModel.configure_optimizers, h]
  · simp [CustomizableModel.configure_optimizers, h]
  · simp [CustomizableModel.configure_optimizers, h]
  · unfold CustomizableModel.configure_optimizers
    split <;> simp_all

/-- Witness for C3 at the three accepted strings and one rejected string. -/
theorem configure_optimizers_spec_witness :
    (wModelOpt "Adam").configure_optimizers = Except.ok
      ⟨OptKind.Adam, (wModelOpt "Adam").lr, (wModelOpt "Adam").L2_regularization_term⟩ ∧
    (wModelOpt "SGD").configure_optimizers = Except.ok
      ⟨OptKind.SGD, (wModelOpt "SGD").lr, (wModelOpt "SGD").L2_regularization_term⟩ ∧
    (wModelOpt "RMSprop").configure_optimizers = Except.ok
      ⟨OptKind.RMSprop, (wModelOpt "RMSprop").lr, (wModelOpt "RMSprop").L2_regularization_term⟩ ∧
    (wModelOpt "AdaGrad").configure_optimizers = Except.error (PyError.valueError
      "optimizer must be one of 'Adam', 'SGD', 'RMSprop'") :=
  ⟨(configure_optimizers_spec (wModelOpt "Adam")).1 rfl,
   (configure_optimizers_spec (wModelOpt "SGD")).2.1 rfl,
   (configure_optimizers_spec (wModelOpt "RMSprop")).2.2.1 rfl,
   (configure_optimizers_spec (wModelOpt "AdaGrad")).2.2.2 (by decide)⟩

/-- C4: the constructor validates its dimensions: a non-integer `input_dim`
raises its TypeError; a non-integer `output_dim` raises a TypeError; integer
dimensions below 1 raise the ValueError (the `lr` check is sequenced before
it, so it must pass); and for integer dimensions at least 1 none of these
three check errors is ever raised. -/
theorem init_validates_dims (input_dim output_dim lr : PyVal) (num : Int)
    (sizes : List Int) (act opt : String) (L2 dr : ℚ)
    (winit : ℕ → ℕ → ℕ → ℚ) (binit : ℕ → ℕ → ℚ) :
    (¬ input_dim.isInt = true →
      CustomizableModel.init input_dim output_dim lr num sizes act opt L2 dr
        winit binit = Except.error (PyError.typeError "input_dim must be an integer")) ∧
    (¬ output_dim.isInt = true →
      ∃ msg, CustomizableModel.init input_dim output_dim lr num sizes act opt L2 dr
        winit binit = Except.error (PyError.typeError msg)) ∧
    (input_dim.isInt = true → output_dim.isInt = true → lr.isFloat = true →
      0 < lr.toRat → (input_dim.toInt < 1 ∨ output_dim.toInt < 1) →
      CustomizableModel.init input_dim output_dim lr num sizes act opt L2 dr
        winit binit = Except.error
          (PyError.valueError "input_dim and output_dim must be positive integers")) ∧
    (input_dim.isInt = true → output_dim.isInt = true →
      1 ≤ input_dim.toInt → 1 ≤ output_dim.toInt →
      CustomizableModel.init input_dim output_dim lr num sizes act opt L2 dr
          winit binit ≠
        Except.error (PyError.typeError "input_dim must be an integer") ∧
      CustomizableModel.init input_dim output_dim lr num sizes act opt L2 dr
          winit binit ≠
        Except.error (PyError.typeError "output_dim must be an integer") ∧
      CustomizableModel.init input_dim output_dim lr num sizes act opt L2 dr
          winit binit ≠
        Except.error (PyError.valueError
          "input_dim and output_dim must be positive integers")) := by
  refine ⟨fun ha => ?_, fun hb => ?_, fun h1 h2 h3 h4 hlt => ?_, fun h1 h2 h5 h6 => ?_⟩
  · unfold CustomizableModel.init
    rw [if_pos ha]
    rfl
  · by_cases ha : input_dim.isInt = true
    · refine ⟨"output_dim must be an integer", ?_⟩
      unfold CustomizableModel.init
      rw [if_neg (not_not_intro ha), except_pure_bind, if_pos hb]
      rfl
    · refine ⟨"input_dim must be an integer", ?_⟩
      unfold CustomizableModel.init
      rw [if_pos ha]
      rfl
  · unfold CustomizableModel.init
    rw [if_neg (not_not_intro h1), except_pure_bind,
        if_neg (not_not_intro h2), except_pure_bind,
        if_neg (by rw [not_or, not_not, not_le]; exact ⟨h3, h4⟩), except_pure_bind,
        if_pos hlt]
    rfl
  · refine ⟨fun hc => ?_, fun hc => ?_, fun hc => ?_⟩ <;>
      rcases init_error_classify input_dim output_dim lr num sizes act opt L2 dr
        winit binit h1 h2 h5 h6 _ hc with h | h | h <;>
      simp_all

/-- Witness for C4: a string `input_dim` and a string `output_dim` are
TypeErrors, a zero `input_dim` is the ValueError, and valid dimensions
trigger none of the three check errors. -/
theorem init_validates_dims_witness :
    CustomizableModel.init (PyVal.strV "x") (PyVal.intV 3) (PyVal.floatV (1 / 1000))
        1 [128] "ReLU" "Adam" 0 0 w0 b0 =
      Except.error (PyError.typeError "input_dim must be an integer") ∧
    (∃ msg, CustomizableModel.init (PyVal.intV 5) (PyVal.strV "y") (PyVal.floatV (1 / 1000))
        1 [128] "ReLU" "Adam" 0 0 w0 b0 = Except.error (PyError.typeError msg)) ∧
    CustomizableModel.init (PyVal.intV 0) (PyVal.intV 3) (PyVal.floatV (1 / 1000))
        1 [128] "ReLU" "Adam" 0 0 w0 b0 =
      Except.error (PyError.valueError "input_dim and output_dim must be positive integers") ∧
    CustomizableModel.init (PyVal.intV 5) (PyVal.intV 3) (PyVal.floatV (1 / 1000))
        1 [128] "ReLU" "Adam" 0 0 w0 b0 ≠
      Except.error (PyError.valueError "input_dim and output_dim must be positive integers") :=
  ⟨(init_validates_dims (PyVal.strV "x") (PyVal.intV 3) (PyVal.floatV (1 / 1000))
      1 [128] "ReLU" "Adam" 0 0 w0 b0).1 (by simp [PyVal.isInt]),
   (init_validates_dims (PyVal.intV 5) (PyVal.strV "y") (PyVal.floatV (1 / 1000))
      1 [128] "ReLU" "Adam" 0 0 w0 b0).2.1 (by simp [PyVal.isInt]),
   (init_validates_dims (PyVal.intV 0) (PyVal.intV 3) (PyVal.floatV (1 / 1000))
      1 [128] "ReLU" "Adam" 0 0 w0 b0).2.2.1 rfl rfl rfl
      (by norm_num [PyVal.toRat]) (Or.inl (by norm_num [PyVal.toInt])),
   ((init_validates_dims (PyVal.intV 5) (PyVal.intV 3) (PyVal.floatV (1 / 1000))
      1 [128] "ReLU" "Adam" 0 0 w0 b0).2.2.2 rfl rfl
      (by norm_num [PyVal.toInt]) (by norm_num [PyVal.toInt])).2.2⟩

/-- C5: when `input_dim` and `output_dim` pass their integer checks, any `lr`
that is not a float — including a positive integer — and any float `lr` that
is not positive make the constructor raise TypeError (not ValueError) with
message "lr must be a positive float". -/
theorem init_validates_lr (input_dim output_dim lr : PyVal) (num : Int)
    (sizes : List Int) (act opt : String) (L2 dr : ℚ)
    (winit : ℕ → ℕ → ℕ → ℚ) (binit : ℕ → ℕ → ℚ)
    (h1 : input_dim.isInt = true) (h2 : output_dim.isInt = true)
    (hlr : ¬ lr.isFloat = true ∨ lr.toRat ≤ 0) :
    CustomizableModel.init input_dim output_dim lr num sizes act opt L2 dr
      winit binit = Except.error (PyError.typeError "lr must be a positive float") := by
  unfold CustomizableModel.init
  rw [if_neg (not_not_intro h1), except_pure_bind,
      if_neg (not_not_intro h2), except_pure_bind, if_pos hlr]
  rfl

/-- Witness for C5: the integer `lr = 1` (not a float) and the nonpositive
float `lr = -1/2` are both rejected with the TypeError. -/
theorem init_validates_lr_witness :
    CustomizableModel.init (PyVal.intV 5) (PyVal.intV 3) (PyVal.intV 1)
        1 [128] "ReLU" "Adam" 0 0 w0 b0 =
      Except.error (PyError.typeError "lr must be a positive float") ∧
    CustomizableModel.init (PyVal.intV 5) (PyVal.intV 3) (PyVal.floatV (-1 / 2))
        1 [128] "ReLU" "Adam" 0 0 w0 b0 =
      Except.error (PyError.typeError "lr must be a positive float") :=
  ⟨init_validates_lr (PyVal.intV 5) (PyVal.intV 3) (PyVal.intV 1)
      1 [128] "ReLU" "Adam" 0 0 w0 b0 rfl rfl (Or.inl (by simp [PyVal.isFloat])),
   init_validates_lr (PyVal.intV 5) (PyVal.intV 3) (PyVal.floatV (-1 / 2))
      1 [128] "ReLU" "Adam" 0 0 w0 b0 rfl rfl (Or.inr (by norm_num [PyVal.toRat]))⟩

/-- C6: the activation match accepts exactly the four strings "ReLU",
"Sigmoid", "Tanh", "LeakyRelU" — mapping them to the torch modules ReLU,
Sigmoid, Tanh, LeakyReLU respectively — and raises its ValueError on every
other string; on success the constructor stores the selected module in
`self.activation`. -/
theorem activation_selection (s : String) :
    (s ∉ (["ReLU", "Sigmoid", "Tanh", "LeakyRelU"] : List String) →
      selectActivation s = Except.error (PyError.valueError
        "activation must be one of 'ReLU', 'Sigmoid', 'Tanh', 'LeakyRelU'")) ∧
    (∀ e, selectActivation s = Except.error e →
      s ∉ (["ReLU", "Sigmoid", "Tanh", "LeakyRelU"] : List String)) ∧
    selectActivation "ReLU" = Except.ok Activation.ReLU ∧
    selectActivation "Sigmoid" = Except.ok Activation.Sigmoid ∧
    selectActivation "Tanh" = Except.ok Activation.Tanh ∧
    selectActivation "LeakyRelU" = Except.ok Activation.LeakyReLU ∧
    (∀ a, selectActivation s = Except.ok a →
      ∀ (winit : ℕ → ℕ → ℕ → ℚ) (binit : ℕ → ℕ → ℚ),
      (CustomizableModel.init (PyVal.intV 5) (PyVal.intV 3) (PyVal.floatV (1 / 1000))
          1 [128] s "Adam" 0 0 winit binit).map CustomizableModel.activation =
        Except.ok a) := by
  refine ⟨fun h => ?_, fun e he hmem => ?_, rfl, rfl, rfl, rfl, fun a ha winit binit => ?_⟩
  · unfold selectActivation
    split <;> simp_all
  · simp only [List.mem_cons, List.not_mem_nil, or_false] at hmem
    rcases hmem with rfl | rfl | rfl | rfl <;> simp [selectActivation] at he
  · rw [init_ok (PyVal.intV 5) (PyVal.intV 3) (PyVal.floatV (1 / 1000)) 1 [128]
      s "Adam" 0 0 winit binit a rfl rfl rfl (by norm_num [PyVal.toRat])
      (by norm_num [PyVal.toInt]) (by norm_num [PyVal.toInt]) ha
      (by simp) (by simp)]
    rfl

/-- Witness for C6: an unrecognised string is rejected with the ValueError,
and "Sigmoid" makes the constructed model carry the Sigmoid module. -/
theorem activation_selection_witness :
    selectActivation "LeakyReLU" = Except.error (PyError.valueError
      "activation must be one of 'ReLU', 'Sigmoid', 'Tanh', 'LeakyRelU'") ∧
    (CustomizableModel.init (PyVal.intV 5) (PyVal.intV 3) (PyVal.floatV (1 / 1000))
        1 [128] "Sigmoid" "Adam" 0 0 w0 b0).map CustomizableModel.activation =
      Except.ok Activation.Sigmoid :=
  ⟨(activation_selection "LeakyReLU").1 (by decide),
   (activation_selection "Sigmoid").2.2.2.2.2.2 Activation.Sigmoid rfl w0 b0⟩

/-- C8: the constructor performs no validation of the optimizer string —
construction succeeds for every string, which is stored as passed — and the
ValueError for a string outside Adam/SGD/RMSprop arises only later, from
`configure_optimizers` on the constructed model. -/
theorem optimizer_unvalidated (s : String)
    (winit : ℕ → ℕ → ℕ → ℚ) (binit : ℕ → ℕ → ℚ) :
    (CustomizableModel.init (PyVal.intV 5) (PyVal.intV 3) (PyVal.floatV (1 / 1000))
        1 [128] "ReLU" s 0 0 winit binit).map CustomizableModel.optimizer =
      Except.ok s ∧
    (s ∉ (["Adam", "SGD", "RMSprop"] : List String) →
      (CustomizableModel.init (PyVal.intV 5) (PyVal.intV 3) (PyVal.floatV (1 / 1000))
          1 [128] "ReLU" s 0 0 winit binit >>= CustomizableModel.configure_optimizers) =
        Except.error (PyError.valueError
          "optimizer must be one of 'Adam', 'SGD', 'RMSprop'")) := by
  have hinit := init_ok (PyVal.intV 5) (PyVal.intV 3) (PyVal.floatV (1 / 1000)) 1 [128]
    "ReLU" s 0 0 winit binit Activation.ReLU rfl rfl rfl (by norm_num [PyVal.toRat])
    (by norm_num [PyVal.toInt]) (by norm_num [PyVal.toInt]) rfl (by simp) (by simp)
  constructor
  · rw [hinit]
    rfl
  · intro hs
    rw [hinit, except_ok_bind]
    unfold CustomizableModel.configure_optimizers
    split <;> simp_all

/-- Witness for C8: the unrecognised optimizer "Foobar" constructs fine and
only `configure_optimizers` rejects it. -/
theorem optimizer_unvalidated_witness :
    (CustomizableModel.init (PyVal.intV 5) (PyVal.intV 3) (PyVal.floatV (1 / 1000))
        1 [128] "ReLU" "Foobar" 0 0 w0 b0).map CustomizableModel.optimizer =
      Except.ok "Foobar" ∧
    (CustomizableModel.init (PyVal.intV 5) (PyVal.intV 3) (PyVal.floatV (1 / 1000))
        1 [128] "ReLU" "Foobar" 0 0 w0 b0 >>= CustomizableModel.configure_optimizers) =
      Except.error (PyError.valueError
        "optimizer must be one of 'Adam', 'SGD', 'RMSprop'") :=
  ⟨(optimizer_unvalidated "Foobar" w0 b0).1,
   (optimizer_unvalidated "Foobar" w0 b0).2 (by decide)⟩

/-- C9: nothing checks `hidden_layer_num` against `hidden_layer_sizes`:
`hidden_layer_num = 3` with sizes `[128]` passes all explicit validation yet
the layer loop indexes out of bounds (IndexError); under the unstated
precondition that the size list is nonempty with length at least
`hidden_layer_num`, construction succeeds. -/
theorem hidden_sizes_unchecked :
    (∀ (winit : ℕ → ℕ → ℕ → ℚ) (binit : ℕ → ℕ → ℚ),
      CustomizableModel.init (PyVal.intV 5) (PyVal.intV 3) (PyVal.floatV (1 / 1000))
        3 [128] "ReLU" "Adam" 0 0 winit binit = Except.error PyError.indexError) ∧
    (∀ (input_dim output_dim lr : PyVal) (num : Int) (sizes : List Int)
      (act opt : String) (L2 dr : ℚ)
      (winit : ℕ → ℕ → ℕ → ℚ) (binit : ℕ → ℕ → ℚ) (a : Activation),
      input_dim.isInt = true → output_dim.isInt = true →
      lr.isFloat = true → 0 < lr.toRat →
      1 ≤ input_dim.toInt → 1 ≤ output_dim.toInt →
      selectActivation act = Except.ok a →
      sizes ≠ [] → num ≤ (sizes.length : Int) →
      ∃ m, CustomizableModel.init input_dim output_dim lr num sizes act opt L2 dr
        winit binit = Except.ok m) := by
  constructor
  · intro winit binit
    have hlr : ¬ (¬ (PyVal.floatV (1 / 1000) : PyVal).isFloat = true ∨
        (PyVal.floatV (1 / 1000) : PyVal).toRat ≤ 0) := by
      rw [not_or, not_not, not_le]
      exact ⟨rfl, by norm_num [PyVal.toRat]⟩
    have hdim : ¬ ((PyVal.intV 5 : PyVal).toInt < 1 ∨ (PyVal.intV 3 : PyVal).toInt < 1) := by
      rw [not_or, not_lt, not_lt]
      exact ⟨by norm_num [PyVal.toInt], by norm_num [PyVal.toInt]⟩
    unfold CustomizableModel.init
    rw [if_neg (by decide), except_pure_bind, if_neg (by decide), except_pure_bind,
        if_neg hlr, except_pure_bind, if_neg hdim, except_pure_bind]
    rfl
  · intro input_dim output_dim lr num sizes act opt L2 dr winit binit a
      h1 h2 h3 h4 h5 h6 ha hne hlen
    exact ⟨_, init_ok input_dim output_dim lr num sizes act opt L2 dr winit binit a
      h1 h2 h3 h4 h5 h6 ha hne hlen⟩

/-- Witness for C9: the failing input errors; lengthening the size list to
match `hidden_layer_num` makes the same construction succeed. -/
theorem hidden_sizes_unchecked_witness :
    CustomizableModel.init (PyVal.intV 5) (PyVal.intV 3) (PyVal.floatV (1 / 1000))
        3 [128] "ReLU" "Adam" 0 0 w0 b0 = Except.error PyError.indexError ∧
    ∃ m, CustomizableModel.init (PyVal.intV 5) (PyVal.intV 3) (PyVal.floatV (1 / 1000))
        2 [128, 64] "ReLU" "Adam" 0 0 w0 b0 = Except.ok m :=
  ⟨hidden_sizes_unchecked.1 w0 b0,
   hidden_sizes_unchecked.2 (PyVal.intV 5) (PyVal.intV 3) (PyVal.floatV (1 / 1000))
      2 [128, 64] "ReLU" "Adam" 0 0 w0 b0 Activation.ReLU rfl rfl rfl
      (by norm_num [PyVal.toRat]) (by norm_num [PyVal.toInt])
      (by norm_num [PyVal.toInt]) rfl (by simp) (by norm_num)⟩

/-- C10: booleans pass the dimension validation, since Python's `bool` is a
subclass of `int` and `True` compares as 1: with `input_dim = True` and
`output_dim = True` the constructor raises nothing and builds a network of
dimension 1 on both ends. -/
theorem bool_dims_accepted (winit : ℕ → ℕ → ℕ → ℚ) (binit : ℕ → ℕ → ℚ) :
    (PyVal.boolV true).isInt = true ∧
    1 ≤ (PyVal.boolV true).toInt ∧
    (CustomizableModel.init (PyVal.boolV true) (PyVal.boolV true)
        (PyVal.floatV (1 / 1000)) 1 [128] "ReLU" "Adam" 0 0 winit binit).map
      (fun m => (m.input_layer.in_features, m.output_layer.out_features)) =
      Except.ok (1, 1) := by
  refine ⟨rfl, by norm_num [PyVal.toInt], ?_⟩
  rw [init_ok (PyVal.boolV true) (PyVal.boolV true) (PyVal.floatV (1 / 1000)) 1 [128]
    "ReLU" "Adam" 0 0 winit binit Activation.ReLU rfl rfl rfl
    (by norm_num [PyVal.toRat]) (by norm_num [PyVal.toInt])
    (by norm_num [PyVal.toInt]) rfl (by simp) (by simp)]
  rfl

/-- The hidden layers the constructor builds for indices `j, …, j+k-1` chain
from width `hidden_layer_sizes[j]` to width `hidden_layer_sizes[j+k]`. -/
theorem chain_range (sizes : List Int) (winit : ℕ → ℕ → ℕ → ℚ) (binit : ℕ → ℕ → ℚ) :
    ∀ (k j : ℕ), j + k < sizes.length →
      Chain (sizes.getD j 0).toNat
        ((List.range' j k).map fun i =>
          mkLinear (sizes.getD i 0).toNat (sizes.getD (i + 1) 0).toNat
            (winit (i + 1)) (binit (i + 1)))
        (sizes.getD (j + k) 0).toNat := by
  intro k
  induction k with
  | zero => intro j h; simp [Chain, List.range']
  | succ k ih =>
    intro j h
    have hsucc : List.range' j (k + 1) = j :: List.range' (j + 1) k := rfl
    rw [hsucc, List.map_cons]
    simp only [Chain]
    refine ⟨rfl, mkLinear_wf _ _ _ _, ?_⟩
    have h2 := ih (j + 1) (by omega)
    have hidx : j + (k + 1) = (j + 1) + k := by omega
    rw [hidx]
    simpa [mkLinear] using h2

/-- C7 (amended): when `hidden_layer_num ≥ 1` and `hidden_layer_sizes` has
length exactly `hidden_layer_num`, the constructor builds
`hidden_layer_num + 1` linear layers — `input_dim → sizes[0]`, then
`sizes[i] → sizes[i+1]` for `i = 0..hidden_layer_num-2`, then
`sizes[-1] → output_dim` — and `forward` maps every batch of rows of length
`input_dim` to a batch of the same size of rows of length `output_dim`. -/
theorem network_structure_and_forward_shape
    (input_dim output_dim lr : PyVal) (num : Int) (sizes : List Int)
    (act opt : String) (L2 dr : ℚ) (winit : ℕ → ℕ → ℕ → ℚ) (binit : ℕ → ℕ → ℚ)
    (a : Activation) (env : Env) (x : Tensor)
    (h1 : input_dim.isInt = true) (h2 : output_dim.isInt = true)
    (h3 : lr.isFloat = true) (h4 : 0 < lr.toRat)
    (h5 : 1 ≤ input_dim.toInt) (h6 : 1 ≤ output_dim.toInt)
    (ha : selectActivation act = Except.ok a)
    (hnum : 1 ≤ num) (hlen : (sizes.length : Int) = num) (hne : sizes ≠ [])
    (hx : ∀ r ∈ x, r.length = input_dim.toInt.toNat) :
    ∃ m, CustomizableModel.init input_dim output_dim lr num sizes act opt L2 dr
        winit binit = Except.ok m ∧
      (m.hidden_layers.length : Int) + 2 = num + 1 ∧
      m.input_layer.in_features = input_dim.toInt.toNat ∧
      m.input_layer.out_features = (sizes.getD 0 0).toNat ∧
      (∀ i, ∀ hi : i < m.hidden_layers.length,
        (m.hidden_layers.get ⟨i, hi⟩).in_features = (sizes.getD i 0).toNat ∧
        (m.hidden_layers.get ⟨i, hi⟩).out_features = (sizes.getD (i + 1) 0).toNat) ∧
      m.output_layer.in_features = (sizes.getLast hne).toNat ∧
      m.output_layer.out_features = output_dim.toInt.toNat ∧
      ∃ y, m.forward env x = Except.ok y ∧ y.length = x.length ∧
        ∀ r ∈ y, r.length = output_dim.toInt.toNat := by
  have hlen' : sizes.length = num.toNat := by omega
  refine ⟨_, init_ok input_dim output_dim lr num sizes act opt L2 dr winit binit a
    h1 h2 h3 h4 h5 h6 ha hne (le_of_eq hlen.symm), ?_, rfl, rfl, ?_, ?_, rfl, ?_⟩
  · simp only [List.length_map, List.length_range]
    omega
  · intro i hi
    simp only [List.length_map, List.length_range] at hi
    constructor <;>
      simp [List.get_eq_getElem, List.getElem_map, List.getElem_range, mkLinear]
  · -- output layer input width: sizes[-1]
    rfl
  · -- the forward pass
    -- input layer
    obtain ⟨y1, hy1, hy1len, hy1row⟩ :=
      applyLinearT_ok (mkLinear input_dim.toInt.toNat (sizes.getD 0 0).toNat
        (winit 0) (binit 0)) (mkLinear_wf _ _ _ _) x hx
    -- activation and dropout after the input layer
    have e1 := elementwise_shape (env.actSem a) y1 _ hy1row
    have e2 := elementwise_shape env.dropSem (actT env a y1) _ e1.2
    -- hidden chain
    have hchain := chain_range sizes winit binit (num - 1).toNat 0 (by omega)
    rw [← List.range_eq_range'] at hchain
    obtain ⟨y2, hy2, hy2len, hy2row⟩ :=
      forwardHidden_ok env a _ _ _ (dropT env (actT env a y1)) hchain e2.2
    -- the last hidden width is sizes[-1]
    have hidx2 : 0 + (num - 1).toNat = sizes.length - 1 := by omega
    have hlast : (sizes.getD (0 + (num - 1).toNat) 0).toNat = (sizes.getLast hne).toNat := by
      rw [hidx2, List.getLast_eq_getElem, ← List.getD_eq_getElem sizes 0 (by omega)]
    -- output layer
    obtain ⟨y3, hy3, hy3len, hy3row⟩ :=
      applyLinearT_ok (mkLinear (sizes.getLast hne).toNat output_dim.toInt.toNat
        (winit num.toNat) (binit num.toNat)) (mkLinear_wf _ _ _ _) y2
        (by intro r hr; rw [hy2row r hr, hlast]; rfl)
    refine ⟨y3, ?_, ?_, hy3row⟩
    · unfold CustomizableModel.forward
      rw [hy1, except_ok_bind]
      dsimp only
      rw [hy2, except_ok_bind]
      exact hy3
    · rw [hy3len, hy2len]
      have : (dropT env (actT env a y1)).length = y1.length := by simp [dropT, actT]
      rw [this, hy1len]

/-- Counterexample to C7 as stated: `hidden_layer_num = 1 ≥ 1` and
`len([3, 5]) = 2 ≥ 1` satisfy the claimed precondition and construction
succeeds, but forward on a `(1, 2)` input raises the torch shape error
instead of returning a `(1, 4)` output — the output layer expects
`sizes[-1] = 5` input features and receives 3. -/
theorem network_shape_counterexample :
    (CustomizableModel.init (PyVal.intV 2) (PyVal.intV 4) (PyVal.floatV (1 / 1000))
        1 [3, 5] "ReLU" "Adam" 0 0 w0 b0).map (fun _ => true) = Except.ok true ∧
    (CustomizableModel.init (PyVal.intV 2) (PyVal.intV 4) (PyVal.floatV (1 / 1000))
        1 [3, 5] "ReLU" "Adam" 0 0 w0 b0 >>= fun m => m.forward env0 [[1, 1]]) =
      Except.error PyError.runtimeError := by
  have hinit := init_ok (PyVal.intV 2) (PyVal.intV 4) (PyVal.floatV (1 / 1000)) 1 [3, 5]
    "ReLU" "Adam" 0 0 w0 b0 Activation.ReLU rfl rfl rfl (by norm_num [PyVal.toRat])
    (by norm_num [PyVal.toInt]) (by norm_num [PyVal.toInt]) rfl (by simp) (by norm_num)
  constructor
  · rw [hinit]
    rfl
  · rw [hinit, except_ok_bind]
    simp [CustomizableModel.forward, applyLinearT, mkLinear, dot, actT, dropT, env0,
      forwardHidden, List.mapM, List.mapM.loop, List.range, List.range.loop,
      Bind.bind, Except.bind, Pure.pure, Except.pure, PyVal.toInt, Int.toNat]

/-- Witness for C7 (amended) at a concrete configuration: two hidden sizes
for `hidden_layer_num = 2`, a `(1, 2)` batch mapped to a `(1, 1)` output. -/
theorem network_structure_and_forward_shape_witness :
    (1 : Int) ≤ 2 ∧ ((([3, 2] : List Int).length : Int) = 2) ∧
    ∃ m, CustomizableModel.init (PyVal.intV 2) (PyVal.intV 1) (PyVal.floatV (1 / 1000))
        2 [3, 2] "ReLU" "Adam" 0 0 w0 b0 = Except.ok m ∧
      (m.hidden_layers.length : Int) + 2 = 2 + 1 ∧
      m.input_layer.in_features = (PyVal.intV 2).toInt.toNat ∧
      m.input_layer.out_features = (([3, 2] : List Int).getD 0 0).toNat ∧
      (∀ i, ∀ hi : i < m.hidden_layers.length,
        (m.hidden_layers.get ⟨i, hi⟩).in_features =
          (([3, 2] : List Int).getD i 0).toNat ∧
        (m.hidden_layers.get ⟨i, hi⟩).out_features =
          (([3, 2] : List Int).getD (i + 1) 0).toNat) ∧
      m.output_layer.in_features =
        (([3, 2] : List Int).getLast (List.cons_ne_nil 3 [2])).toNat ∧
      m.output_layer.out_features = (PyVal.intV 1).toInt.toNat ∧
      ∃ y, m.forward env0 [[1, 1]] = Except.ok y ∧
        y.length = ([[1, 1]] : Tensor).length ∧
        ∀ r ∈ y, r.length = (PyVal.intV 1).toInt.toNat :=
  ⟨by norm_num, by norm_num,
   network_structure_and_forward_shape (PyVal.intV 2) (PyVal.intV 1)
      (PyVal.floatV (1 / 1000)) 2 [3, 2] "ReLU" "Adam" 0 0 w0 b0 Activation.ReLU
      env0 [[1, 1]] rfl rfl rfl (by norm_num [PyVal.toRat])
      (by norm_num [PyVal.toInt]) (by norm_num [PyVal.toInt]) rfl
      (by norm_num) (by norm_num) (List.cons_ne_nil 3 [2])
      (by intro r hr; simp at hr; subst hr; rfl)⟩
